import Mathlib

/-!
Shallow embedding of the VariantVisualizer filtering / sorting / storage
layer (src/database.py, src/utils.py, src/main.py, src/config.py) and
verification of the frozen claims about it.

Conventions of the embedding:
* A polars DataFrame of variant rows is a `List Row`; the on-disk parquet
  file is an `Option (Except String (List Row))`: `none` models a missing
  file, `Except.error` models a read/parse exception raised while reading,
  `Except.ok rows` models a successful read.  The same convention is used
  for the comments parquet file.
* Python strings are Lean `String`s.  The Python/polars string operations
  used by the code (`lower`, `strip`, `replace`, `split`, `in`,
  `isdigit`, comparison) are re-implemented below by structural recursion
  on the character list so that they evaluate inside the kernel.
* Machine integers (polars Int32/Int64) are modelled as `Int`; positions
  and ids stay far below 2^31 in every concrete instance considered here,
  so overflow is not modelled.  Float columns that no claim touches
  (population frequencies, scores) are not modelled; the VAF column is
  modelled as an exact rational.
* `df.sort` of polars is modelled as a comparison sort returning a
  permutation of its input that is pairwise ordered by the requested key
  order.  polars does not promise a particular tie order
  (`maintain_order` defaults to `False`); no theorem below relies on the
  tie order of the model.
-/

/-- Python `needle in hay` / polars `str.contains` (the search terms fed to
it in this code base contain no regex metacharacters, so substring
containment is the faithful reading): `containsSeg pat l` is true iff `pat`
occurs as a contiguous segment of `l`. -/
def containsSeg (pat : List Char) : List Char → Bool
  | [] => pat.isEmpty
  | c :: cs => pat.isPrefixOf (c :: cs) || containsSeg pat cs

/-- Substring test on strings: Python `needle in hay`. -/
def isSubstr (needle hay : String) : Bool :=
  containsSeg needle.data hay.data

/-- Python `str.lower()`. -/
def toLowerStr (s : String) : String := ⟨s.data.map Char.toLower⟩

/-- Python `str.upper()`. -/
def toUpperStr (s : String) : String := ⟨s.data.map Char.toUpper⟩

/-- Python `str.strip()`: drop leading and trailing whitespace. -/
def trimStr (s : String) : String :=
  ⟨((s.data.dropWhile Char.isWhitespace).reverse.dropWhile Char.isWhitespace).reverse⟩

/-- Replacement loop for `strReplace`, fuelled so that it is structurally
recursive (the fuel `s.length` is enough because every step consumes at
least one character when the pattern is nonempty, which it always is at the
call sites: "chr" and "chromosome"). -/
def replaceAux (pat repl : List Char) : Nat → List Char → List Char
  | 0, rest => rest
  | _, [] => []
  | fuel + 1, c :: cs =>
    if pat.isPrefixOf (c :: cs) then
      repl ++ replaceAux pat repl fuel (List.drop pat.length (c :: cs))
    else
      c :: replaceAux pat repl fuel cs

/-- Python `s.replace(pat, repl)`: replace every non-overlapping occurrence
of `pat`, scanning left to right. -/
def strReplace (s pat repl : String) : String :=
  ⟨replaceAux pat.data repl.data s.data.length s.data⟩

/-- Splitting loop for `splitOnStr`. -/
def splitCharAux (sep : Char) : List Char → List (List Char)
  | [] => [[]]
  | c :: cs =>
    let r := splitCharAux sep cs
    if c = sep then [] :: r
    else
      match r with
      | [] => [[c]]
      | h :: t => (c :: h) :: t

/-- Python `s.split(sep)` / polars `str.split(sep)` for a one-character
separator: `"123,456" ↦ ["123","456"]`, `"" ↦ [""]`. -/
def splitOnStr (s : String) (sep : Char) : List String :=
  (splitCharAux sep s.data).map (fun l => ⟨l⟩)

/-- Numeric value of a digit list (only used under an `isdigit` guard). -/
def digitsToNat (l : List Char) : Nat :=
  l.foldl (fun acc c => acc * 10 + (c.toNat - 48)) 0

/-- Python `str.isdigit()`: nonempty and all characters are digits. -/
def isDigitStr (s : String) : Bool :=
  decide (s.data ≠ []) && s.data.all Char.isDigit

/-- Python `int(s)` for a string that passed `isdigit`. -/
def strToNat (s : String) : Nat := digitsToNat s.data

/-- polars `cast(pl.Int32, strict=False)` on a Utf8 column: parse an
optional sign followed by digits, anything else becomes null. -/
def castInt32 (s : String) : Option Int :=
  match s.data with
  | '-' :: rest =>
    if rest ≠ [] ∧ rest.all Char.isDigit then some (-(digitsToNat rest : Int)) else none
  | l =>
    if l ≠ [] ∧ l.all Char.isDigit then some ((digitsToNat l : Int)) else none

/-- Lexicographic order on code-point lists; `strLeB` below models the
polars/Python ordering of (ASCII) strings. -/
def natListLe : List Nat → List Nat → Bool
  | [], _ => true
  | _ :: _, [] => false
  | a :: as, b :: bs =>
    if a < b then true else if b < a then false else natListLe as bs

/-- String comparison used by every string sort key in the model. -/
def strLeB (a b : String) : Bool :=
  natListLe (a.data.map Char.toNat) (b.data.map Char.toNat)

/-- A comparison sort (stable in the model; polars leaves the tie order
unspecified, and no claim theorem relies on it). -/
def sort_by_bool {α : Type} (le : α → α → Bool) (l : List α) : List α :=
  List.insertionSort (fun a b => le a b = true) l

theorem natListLe_total : ∀ as bs : List Nat, (natListLe as bs || natListLe bs as) = true := by
  intro as
  induction as with
  | nil => intro bs; cases bs <;> simp [natListLe]
  | cons a as ih =>
    intro bs
    cases bs with
    | nil => simp [natListLe]
    | cons b bs =>
      simp only [natListLe]
      by_cases h1 : a < b
      · simp [h1]
      · by_cases h2 : b < a
        · simp [h1, h2]
        · have hab : a = b := by omega
          subst hab
          simp [h1, h2, ih bs]

theorem natListLe_trans :
    ∀ as bs cs : List Nat,
      natListLe as bs = true → natListLe bs cs = true → natListLe as cs = true := by
  intro as
  induction as with
  | nil => intro bs cs _ _; simp [natListLe]
  | cons a as ih =>
    intro bs cs h1 h2
    cases bs with
    | nil => simp [natListLe] at h1
    | cons b bs =>
      cases cs with
      | nil => simp [natListLe] at h2
      | cons c cs =>
        simp only [natListLe] at h1 h2 ⊢
        by_cases hab : a < b
        · by_cases hbc : b < c
          · have hac : a < c := by omega
            simp [hac]
          · by_cases hcb : c < b
            · simp [hbc, hcb] at h2
            · have hac : a < c := by omega
              simp [hac]
        · by_cases hba : b < a
          · simp [hab, hba] at h1
          · simp only [hab, if_false, hba] at h1
            by_cases hbc : b < c
            · have hac : a < c := by omega
              simp [hac]
            · by_cases hcb : c < b
              · simp [hbc, hcb] at h2
              · simp only [hbc, if_false, hcb] at h2
                have hac : ¬ a < c := by omega
                have hca : ¬ c < a := by omega
                simp only [hac, if_false, hca]
                exact ih bs cs h1 h2

theorem strLeB_total (a b : String) : (strLeB a b || strLeB b a) = true :=
  natListLe_total _ _

theorem strLeB_trans (a b c : String) :
    strLeB a b = true → strLeB b c = true → strLeB a c = true :=
  natListLe_trans _ _ _

theorem sort_by_bool_sorted {α : Type} (le : α → α → Bool)
    (htrans : ∀ a b c, le a b = true → le b c = true → le a c = true)
    (htotal : ∀ a b, (le a b || le b a) = true) (l : List α) :
    List.Sorted (fun a b => le a b = true) (sort_by_bool le l) := by
  haveI : IsTrans α (fun a b => le a b = true) := ⟨fun a b c => htrans a b c⟩
  haveI : IsTotal α (fun a b => le a b = true) := ⟨fun a b => by
    have h := htotal a b
    rcases Bool.or_eq_true_iff.mp h with h' | h'
    · exact Or.inl h'
    · exact Or.inr h'⟩
  exact List.sorted_insertionSort _ l

theorem sort_by_bool_perm {α : Type} (le : α → α → Bool) (l : List α) :
    (sort_by_bool le l).Perm l :=
  List.perm_insertionSort _ l

/-! ## Configuration (src/config.py) -/

/-- config.py: `MAX_DISPLAY_VARIANTS = 20`. -/
def MAX_DISPLAY_VARIANTS : Nat := 20

/-- config.py: `MAX_LOAD_LIMIT = 5000`. -/
def MAX_LOAD_LIMIT : Nat := 5000

/-! ## Data model (spec section 3, columns used by database.py/utils.py/main.py) -/

/-- One variant-by-sample row of the variants parquet dataset.  Only the
columns that the embedded operations read are modelled; the float
frequency/score columns (gnomAD populations, CADD, ...) are untouched by
every claim and are elided, so `_ensure_max_gnomad_af` — which only adds a
derived frequency column and never changes row count, order or any other
column — is not part of the model.  `commentCount` is `none` while the
`comment_count` column is absent and `some n` once a load has attached
it. -/
structure Row where
  CHROM : String
  POS : Int
  REF : String
  ALT : String
  SAMPLE : String
  GT : String
  VAF : Rat
  gene : String
  consequence : String
  clinvar_sig : Option String
  review_status : String
  variant_key : String
  commentCount : Option Nat := none
deriving DecidableEq, Repr

/-- One row of the comments parquet dataset (schema from
`init_parquet_database` in src/database.py). -/
structure Comment where
  id : Int
  variant_key : String
  sample_id : String
  user_name : String
  comment_text : String
  timestamp : String
deriving DecidableEq, Repr

/-- The variants parquet file on disk: missing, unreadable, or readable
with the given rows. -/
abbrev VariantsDisk := Option (Except String (List Row))

/-- The comments parquet file on disk. -/
abbrev CommentsDisk := Option (Except String (List Comment))

/-! ## Variant data store (src/database.py) -/

/-- database.py line 66: `effective_limit = min(limit or MAX_LOAD_LIMIT,
MAX_LOAD_LIMIT)`.  Python truthiness makes both `None` and `0` fall back to
`MAX_LOAD_LIMIT`. -/
def effective_limit (limit : Option Nat) : Nat :=
  min (match limit with
       | none => MAX_LOAD_LIMIT
       | some n => if n = 0 then MAX_LOAD_LIMIT else n)
      MAX_LOAD_LIMIT

/-- Number of comment rows for one variant row: the `comment_count` value
produced by the `group_by(['variant_key','sample_id']).agg(len)` /
left-join in `load_variants_lazy` (the join keys of the aggregate are
unique, so the join attaches exactly this count to each row and duplicates
nothing). -/
def comment_count_for (cs : List Comment) (r : Row) : Nat :=
  (cs.filter (fun c =>
    decide (c.variant_key = r.variant_key) && decide (c.sample_id = r.SAMPLE))).length

/-- database.py lines 94-120: conditional comment-count attachment of
`load_variants_lazy`.  When the result is small enough to display, a
present nonempty comments file contributes real counts; a missing comments
file or a comments read error contributes a zero column; a present but
empty comments file leaves the column absent (the code skips both the join
and the `with_columns` in that case).  An oversized result also gets the
zero column. -/
def attach_comment_counts (cdisk : CommentsDisk) (df : List Row) : List Row :=
  if df.length ≤ MAX_DISPLAY_VARIANTS then
    match cdisk with
    | some (.ok cs) =>
      if 0 < cs.length then
        df.map (fun r => { r with commentCount := some (comment_count_for cs r) })
      else df
    | some (.error _) => df.map (fun r => { r with commentCount := some 0 })
    | none => df.map (fun r => { r with commentCount := some 0 })
  else df.map (fun r => { r with commentCount := some 0 })

/-- database.py lines 59-126: `OptimizedParquetDB.load_variants_lazy`.
`samples`/`chromosomes` model the optional filter arguments; Python treats
`None` and `[]` identically (both falsy), so the unsupplied case is `[]`.
A missing variants file and a read error both produce the empty frame (the
early return and the `except` branch). -/
def load_variants_lazy (disk : VariantsDisk) (samples chromosomes : List String)
    (limit : Option Nat) (cdisk : CommentsDisk) : List Row :=
  match disk with
  | none => []
  | some (.error _) => []
  | some (.ok rows) =>
    let eff := effective_limit limit
    let f1 := if samples ≠ [] then rows.filter (fun r => decide (r.SAMPLE ∈ samples)) else rows
    let chrom_list := chromosomes.map (fun c => strReplace c "chr" "")
    let f2 :=
      if chromosomes ≠ [] then f1.filter (fun r => decide (r.CHROM ∈ chrom_list)) else f1
    attach_comment_counts cdisk (f2.take eff)

/-- database.py lines 233-264: `OptimizedParquetDB.search_variants`:
case-insensitive substring match over gene, consequence, sample and
chromosome, OR-combined, capped at `limit`. -/
def search_variants (disk : VariantsDisk) (search_term : String) (limit : Nat) : List Row :=
  match disk with
  | none => []
  | some (.error _) => []
  | some (.ok rows) =>
    let sl := toLowerStr search_term
    (rows.filter (fun r =>
      isSubstr sl (toLowerStr r.gene) || isSubstr sl (toLowerStr r.consequence) ||
      isSubstr sl (toLowerStr r.SAMPLE) || isSubstr sl (toLowerStr r.CHROM))).take limit

/-- Aggregate returned by `get_database_stats`. -/
structure DBStats where
  total_variants : Nat
  total_samples : Nat
  reviewed_variants : Nat
  pending_variants : Nat
  clinvar_annotated : Nat
  chromosomes : List String
deriving DecidableEq, Repr

/-- The all-zero statistics dict that `get_database_stats` builds both when
the variants file is missing and in its `except` branch. -/
def empty_db_stats : DBStats :=
  { total_variants := 0, total_samples := 0, reviewed_variants := 0,
    pending_variants := 0, clinvar_annotated := 0, chromosomes := [] }

/-- Python `sorted` on strings. -/
def sort_strings (l : List String) : List String := sort_by_bool strLeB l

/-- database.py lines 164-231: `get_database_stats` (the group_by of
review_status followed by the filtered sums is modelled directly as the two
counts).  Note the source quirk `'pending_variants': pending or
total_variants`: a zero pending count is reported as the total. -/
def get_database_stats (disk : VariantsDisk) : DBStats :=
  match disk with
  | none => empty_db_stats
  | some (.error _) => empty_db_stats
  | some (.ok rows) =>
    let total := rows.length
    let reviewed := (rows.filter (fun r => decide (r.review_status = "Reviewed"))).length
    let pending := (rows.filter (fun r => decide (r.review_status = "Pending"))).length
    { total_variants := total,
      total_samples := ((rows.map (fun r => r.SAMPLE)).dedup).length,
      reviewed_variants := reviewed,
      pending_variants := if pending = 0 then total else pending,
      clinvar_annotated := (rows.filter (fun r => r.clinvar_sig.isSome)).length,
      chromosomes := sort_strings ((rows.map (fun r => r.CHROM)).dedup) }

/-- database.py line 309: `new_id = comments_df['id'].max() + 1 if
len(comments_df) > 0 else 1`. -/
def new_comment_id (cs : List Comment) : Int :=
  if 0 < cs.length then ((cs.map (fun c => c.id)).max?.getD 0) + 1 else 1

/-- database.py lines 293-330: `add_variant_comment`.  The timestamp the
code takes from the wall clock is passed in as `ts`.  `writeOk` models
whether `write_parquet` succeeds; a read error or a write error is caught
by the `except` branch, which logs and returns `False`, leaving the file
unchanged (the new frame is built in memory first). -/
def add_variant_comment (cdisk : CommentsDisk) (writeOk : Bool)
    (variant_key sample_id user_name comment_text ts : String) : Bool × CommentsDisk :=
  match cdisk with
  | some (.error e) => (false, some (.error e))
  | some (.ok cs) =>
    let updated := cs ++ [{ id := new_comment_id cs, variant_key := variant_key,
                            sample_id := sample_id, user_name := user_name,
                            comment_text := comment_text, timestamp := ts }]
    if writeOk then (true, some (.ok updated)) else (false, some (.ok cs))
  | none =>
    let updated := [{ id := new_comment_id [], variant_key := variant_key,
                      sample_id := sample_id, user_name := user_name,
                      comment_text := comment_text, timestamp := ts }]
    if writeOk then (true, some (.ok updated)) else (false, none)

/-- Comparison used by `get_variant_comments`: `sort('timestamp',
descending=True)`. -/
def comment_ts_desc_le (a b : Comment) : Bool := strLeB b.timestamp a.timestamp

/-- database.py lines 332-357: `get_variant_comments`: filter to one
(variant_key, sample_id) pair, sort newest first by timestamp descending,
return the (user_name, comment_text, timestamp) columns.  A missing file, a
read error, or an empty comments frame give the empty result. -/
def get_variant_comments (cdisk : CommentsDisk) (variant_key sample_id : String) :
    List (String × String × String) :=
  match cdisk with
  | none => []
  | some (.error _) => []
  | some (.ok cs) =>
    if cs.length = 0 then []
    else
      ((sort_by_bool comment_ts_desc_le
          (cs.filter (fun c =>
            decide (c.variant_key = variant_key) && decide (c.sample_id = sample_id)))).map
        (fun c => (c.user_name, c.comment_text, c.timestamp)))

/-- database.py lines 359-389: `update_variant_review_status`: rewrite the
review_status of the matching rows in place; a missing file, a read error
or a write error yields `False` with the file unchanged. -/
def update_variant_review_status (disk : VariantsDisk) (writeOk : Bool)
    (variant_key sample_id new_status : String) : Bool × VariantsDisk :=
  match disk with
  | none => (false, none)
  | some (.error e) => (false, some (.error e))
  | some (.ok rows) =>
    let rows2 := rows.map (fun r =>
      if r.variant_key = variant_key ∧ r.SAMPLE = sample_id then
        { r with review_status := new_status }
      else r)
    if writeOk then (true, some (.ok rows2)) else (false, some (.ok rows))

/-! ## Gene identifier/symbol resolver (src/utils.py) -/

/-- The process-wide HGNC_ID → HGNC_symbol mapping that `load_gene_mapping`
reads from `data/symbol.tsv` once per process.  A Python dict with unique
keys is modelled as an association list with distinct keys; `List.lookup`
is the dict lookup. -/
abbrev GeneMapping := List (String × String)

/-- utils.py lines 43-59: `get_gene_name_from_id` (string inputs; `None`
and NaN behave exactly like the empty string: both are falsy, so both
return the `'UNKNOWN'` placeholder). -/
def get_gene_name_from_id (mapping : GeneMapping) (gene_id : String) : String :=
  if gene_id = "" ∨ gene_id = "UNKNOWN" then
    -- `return gene_id if gene_id else 'UNKNOWN'`
    if gene_id ≠ "" then gene_id else "UNKNOWN"
  else if (mapping ≠ [] ∧ List.lookup gene_id mapping = none) ∧
          mapping.any (fun p => toUpperStr p.2 = toUpperStr gene_id) then
    -- the "already a gene name" loop returns the input unchanged
    gene_id
  else
    -- `gene_mapping.get(gene_id_str, gene_id_str)`
    (List.lookup gene_id mapping).getD gene_id

/-- utils.py lines 88-114: `find_genes_by_search_term`.  The source loop
appends (id, name) once when the lowered term occurs in the name
(primary) or else in the id (secondary); that is a filter of the mapping
by the disjunction, mapped to its two columns. -/
def find_genes_by_search_term (mapping : GeneMapping) (search_term : String) :
    List String × List String :=
  if trimStr search_term = "" then ([], [])
  else
    let sl := toLowerStr (trimStr search_term)
    let matched := mapping.filter (fun p =>
      isSubstr sl (toLowerStr p.2) || isSubstr sl (toLowerStr p.1))
    (matched.map (fun p => p.1), matched.map (fun p => p.2))

/-! ## Filter engine (src/utils.py, `apply_filters_with_debug`) -/

/-- The preset-filter dict handed to `apply_filters`; each field is one of
the named boolean toggles. -/
structure ActiveFilters where
  high_impact : Bool := false
  pathogenic : Bool := false
  heterozygous : Bool := false
  homozygous : Bool := false
deriving DecidableEq, Repr

/-- utils.py lines 175-178: the sample filter
(`SAMPLE.is_in(selected_samples)`, applied only when the argument is
truthy). -/
def sample_stage (selected_samples : List String) (l : List Row) : List Row :=
  if selected_samples ≠ [] then
    l.filter (fun r => decide (r.SAMPLE ∈ selected_samples))
  else l

/-- utils.py lines 180-183: the chromosome equality filter. -/
def chromosome_stage (chromosome_filter : String) (l : List Row) : List Row :=
  if chromosome_filter ≠ "" ∧ chromosome_filter ≠ "all" then
    l.filter (fun r => decide (r.CHROM = chromosome_filter))
  else l

/-- utils.py lines 185-193: the genotype-class filter. -/
def genotype_stage (genotype_filter : String) (l : List Row) : List Row :=
  if genotype_filter ≠ "" ∧ genotype_filter ≠ "all" then
    if genotype_filter = "het" then
      l.filter (fun r => decide (r.GT ∈ (["0/1", "1/0", "0|1", "1|0"] : List String)))
    else if genotype_filter = "hom_alt" then
      l.filter (fun r => decide (r.GT ∈ (["1/1", "1|1"] : List String)))
    else if genotype_filter = "hom_ref" then
      l.filter (fun r => decide (r.GT ∈ (["0/0", "0|0"] : List String)))
    else l
  else l

/-- utils.py lines 196-340: the OR-combined free-text search condition of
`apply_filters_with_debug` evaluated on one row — sample, consequence,
chromosome (exact and contains, after stripping "chr"/"chromosome"),
numeric position, chrom:pos, the gene field directly, and the
gene-mapping expansions (exact `is_in` on matching ids/names plus
`str.contains` on the first three of each). -/
def search_filter_condition (mapping : GeneMapping) (search_term : String) (r : Row) : Bool :=
  let sl := toLowerStr (trimStr search_term)
  let c_sample := isSubstr sl (toLowerStr r.SAMPLE)
  let c_conseq := isSubstr sl (toLowerStr r.consequence)
  let chrom_search := trimStr (strReplace (strReplace sl "chr" "") "chromosome" "")
  let c_chrom :=
    decide (chrom_search ≠ "") &&
      (decide (toLowerStr r.CHROM = chrom_search) || isSubstr chrom_search (toLowerStr r.CHROM))
  let c_pos := isDigitStr search_term && decide (r.POS = (strToNat search_term : Int))
  let c_chrpos :=
    if search_term.data.contains ':' then
      match splitOnStr search_term ':' with
      | p0 :: p1 :: _ =>
        let chrom_part := toLowerStr (trimStr (strReplace p0 "chr" ""))
        let pos_part := trimStr p1
        isDigitStr pos_part &&
          (decide (toLowerStr r.CHROM = chrom_part) &&
           decide (r.POS = (strToNat pos_part : Int)))
      | _ => false
    else false
  let c_gene := isSubstr sl (toLowerStr r.gene)
  let c_mapping :=
    if mapping ≠ [] then
      let ids := (find_genes_by_search_term mapping search_term).1
      let names := (find_genes_by_search_term mapping search_term).2
      (decide (ids ≠ []) && decide (r.gene ∈ ids)) ||
      (ids.take 3).any (fun gid => isSubstr gid r.gene) ||
      (decide (names ≠ []) && decide (r.gene ∈ names)) ||
      (names.take 3).any (fun nm => isSubstr nm r.gene)
    else false
  c_sample || c_conseq || c_chrom || c_pos || c_chrpos || c_gene || c_mapping

/-- utils.py lines 196-340: the search stage (`if search_term and
search_term.strip():`; the condition list is never empty once entered, so
the combined filter is always applied). -/
def search_stage (mapping : GeneMapping) (search_term : String) (l : List Row) : List Row :=
  if trimStr search_term ≠ "" then l.filter (search_filter_condition mapping search_term)
  else l

/-- utils.py lines 344-347: the "high impact" preset. -/
def preset_high_impact (active : Bool) (l : List Row) : List Row :=
  if active then
    l.filter (fun r => decide (r.consequence ∈
      (["frameshift_variant", "stop_gained", "stopgain", "stop_lost"] : List String)))
  else l

/-- utils.py lines 349-350: the "pathogenic" preset (a null clinvar_sig
never passes `is_in`). -/
def preset_pathogenic (active : Bool) (l : List Row) : List Row :=
  if active then
    l.filter (fun r =>
      match r.clinvar_sig with
      | some s => decide (s ∈ (["Pathogenic", "Likely pathogenic"] : List String))
      | none => false)
  else l

/-- utils.py lines 353-354: the "heterozygous" preset. -/
def preset_heterozygous (active : Bool) (l : List Row) : List Row :=
  if active then
    l.filter (fun r => decide (r.GT ∈ (["0/1", "1/0", "0|1", "1|0"] : List String)))
  else l

/-- utils.py lines 357-358: the "homozygous" preset. -/
def preset_homozygous (active : Bool) (l : List Row) : List Row :=
  if active then
    l.filter (fun r => decide (r.GT ∈ (["1/1", "1|1", "0/0", "0|0"] : List String)))
  else l

/-- utils.py lines 343-359: the preset block (`if active_filters:` with the
four independently toggled filters applied in source order). -/
def preset_stage (active_filters : Option ActiveFilters) (l : List Row) : List Row :=
  match active_filters with
  | none => l
  | some a =>
    preset_homozygous a.homozygous
      (preset_heterozygous a.heterozygous
        (preset_pathogenic a.pathogenic
          (preset_high_impact a.high_impact l)))

/-- utils.py lines 161-362: `apply_filters_with_debug` — the early return
on an empty frame, then sample, chromosome, genotype, search and preset
filters in source order (the debug counting it interleaves does not change
the frame). -/
def apply_filters_with_debug (mapping : GeneMapping) (df : List Row)
    (search_term genotype_filter chromosome_filter : String)
    (active_filters : Option ActiveFilters) (selected_samples : List String) : List Row :=
  if df.length = 0 then df
  else
    preset_stage active_filters
      (search_stage mapping search_term
        (genotype_stage genotype_filter
          (chromosome_stage chromosome_filter
            (sample_stage selected_samples df))))

/-- utils.py line 365: `apply_filters = apply_filters_with_debug`. -/
def apply_filters (mapping : GeneMapping) (df : List Row)
    (search_term genotype_filter chromosome_filter : String)
    (active_filters : Option ActiveFilters) (selected_samples : List String) : List Row :=
  apply_filters_with_debug mapping df search_term genotype_filter chromosome_filter
    active_filters selected_samples

/-! ## Sorting (src/utils.py `sort_variants`, src/main.py sort branches) -/

/-- utils.py lines 661-667 / main.py lines 396-402: the chromosome sort key
(`when X then 23, when Y then 24, when MT then 25, otherwise
cast(Int32, strict=False)`; a non-numeric other chromosome becomes
null). -/
def chrom_numeric_key (c : String) : Option Int :=
  if c = "X" then some 23
  else if c = "Y" then some 24
  else if c = "MT" then some 25
  else castInt32 c

/-- polars two-column sort order with the same `descending` flag on both
columns, nulls placed first (`nulls_last` defaults to `False`). -/
def polars_two_key_le (descending : Bool) (k1 : Option Int) (p1 : Int)
    (k2 : Option Int) (p2 : Int) : Bool :=
  match k1, k2 with
  | none, none => if descending then decide (p2 ≤ p1) else decide (p1 ≤ p2)
  | none, some _ => true
  | some _, none => false
  | some i, some j =>
    if i = j then (if descending then decide (p2 ≤ p1) else decide (p1 ≤ p2))
    else if descending then decide (j ≤ i) else decide (i ≤ j)

/-- Row order realized by `df.sort(['chrom_numeric','POS'], descending=not
ascending)` (utils.py line 668) and the identical
`descending=[not ascending, not ascending]` form (main.py line 403). -/
def position_le (descending : Bool) (a b : Row) : Bool :=
  polars_two_key_le descending (chrom_numeric_key a.CHROM) a.POS
    (chrom_numeric_key b.CHROM) b.POS

/-- Single string column sort order with a `descending` flag. -/
def str_field_le (descending : Bool) (f : Row → String) (a b : Row) : Bool :=
  if descending then strLeB (f b) (f a) else strLeB (f a) (f b)

/-- Single nullable string column sort order, nulls first. -/
def opt_str_field_le (descending : Bool) (f : Row → Option String) (a b : Row) : Bool :=
  match f a, f b with
  | none, _ => true
  | some _, none => false
  | some x, some y => if descending then strLeB y x else strLeB x y

/-- Single numeric column sort order with a `descending` flag. -/
def rat_field_le (descending : Bool) (f : Row → Rat) (a b : Row) : Bool :=
  if descending then decide (f b ≤ f a) else decide (f a ≤ f b)

/-- utils.py lines 654-679: `sort_variants`.  Note its `gene` branch sorts
the raw `gene` column (this function is dead code superseded by the
symbol-aware sort in main.py, see `sort_by_gene_symbol`). -/
def sort_variants (df : List Row) (sort_by : String) (ascending : Bool) : List Row :=
  if sort_by = "position" then sort_by_bool (position_le (!ascending)) df
  else if sort_by = "gene" then sort_by_bool (str_field_le (!ascending) (fun r => r.gene)) df
  else if sort_by = "consequence" then
    sort_by_bool (str_field_le (!ascending) (fun r => r.consequence)) df
  else if sort_by = "clinvar" then
    sort_by_bool (opt_str_field_le (!ascending) (fun r => r.clinvar_sig)) df
  else if sort_by = "vaf" then sort_by_bool (rat_field_le (!ascending) (fun r => r.VAF)) df
  else df

/-! ## Display handler (src/main.py) -/

/-- main.py lines 413-432: `convert_gene_ids_to_symbols` — empty/unknown
fields map to 'UNKNOWN', otherwise the comma-separated gene list is
stripped, emptied entries dropped, every id translated through the mapping
(ids not in the mapping stay as they are) and the first symbol is the sort
key; taking the head of the translated list equals translating the head. -/
def convert_gene_ids_to_symbols (mapping : GeneMapping) (gene_str : String) : String :=
  if gene_str = "" ∨ gene_str = "UNKNOWN" then "UNKNOWN"
  else
    let genes := ((splitOnStr gene_str ',').map trimStr).filter (fun g => decide (g ≠ ""))
    match genes with
    | [] => "UNKNOWN"
    | g :: _ =>
      match List.lookup g mapping with
      | some sym => sym
      | none => g

/-- Row order of the fixed gene sort of main.py (sort by the resolved
symbol key). -/
def gene_symbol_sort_le (mapping : GeneMapping) (descending : Bool) (a b : Row) : Bool :=
  if descending then
    strLeB (convert_gene_ids_to_symbols mapping b.gene) (convert_gene_ids_to_symbols mapping a.gene)
  else
    strLeB (convert_gene_ids_to_symbols mapping a.gene) (convert_gene_ids_to_symbols mapping b.gene)

/-- main.py lines 405-445: the `sort_column == "gene"` branch — add a
temporary `gene_symbol_for_sort` column, sort by it, drop it; equivalently
a key sort by the resolved first symbol. -/
def sort_by_gene_symbol (mapping : GeneMapping) (df : List Row) (ascending : Bool) : List Row :=
  sort_by_bool (gene_symbol_sort_le mapping (!ascending)) df

/-- main.py lines 334-344: build the HGNC id set for the active panel genes
through the reverse mapping `{symbol.upper(): id}` (a dict comprehension:
for duplicate upper-cased symbols the last binding wins, hence the reversed
first-match lookup); insertion order of the Python set is irrelevant
because only membership is consumed downstream. -/
def build_panel_ids (mapping : GeneMapping) (panel_genes : List String) : List String :=
  (panel_genes.map (fun g =>
    let g_upper := toUpperStr g
    match (mapping.reverse.find? (fun p => toUpperStr p.2 = g_upper)).map (fun p => p.1) with
    | some hgnc_id => hgnc_id
    | none => g_upper)).dedup

/-- main.py lines 352-359: the gene-panel filter —
`pl.col("gene").str.split(",").list.contains(g)` for a single id and the
`any_horizontal` of those conditions for several. -/
def panel_gene_filter (gene_list : List String) (df : List Row) : List Row :=
  match gene_list with
  | [g] => df.filter (fun r => decide (g ∈ splitOnStr r.gene ','))
  | _ => df.filter (fun r => gene_list.any (fun g => decide (g ∈ splitOnStr r.gene ',')))

/-- First element of the triple returned by the display callback. -/
inductive DisplayComponent where
  | noSelectionDisplay : DisplayComponent
  | variantTable : List Row → DisplayComponent
  | errorComponent : String → DisplayComponent
deriving DecidableEq, Repr

/-- `create_variant_count_display(count, total_count, sample_count)`. -/
structure CountDisplay where
  count : Nat
  total : Nat
  sampleCount : Nat
deriving DecidableEq, Repr

/-- The (display, count display, storage) triple returned by the
callback. -/
abbrev HandlerResult := DisplayComponent × CountDisplay × List Row

/-- main.py lines 307-489: `update_variants_display_optimized`.  The
remaining callback inputs (search term, VAF range, sort state, selected
panels) are consumed only at or after the `apply_filters_optimized` call
and therefore never influence the result: that name is defined nowhere in
the source (utils.py defines only `apply_filters`), so for every non-empty
selection whose load is non-empty the Python `NameError` it raises is
caught by the outer `try/except`, which returns the error component with
zero counts and empty storage.  (The f-string wraps the interpreter's
message, quotes elided here.) -/
def update_variants_display_optimized (disk : VariantsDisk) (cdisk : CommentsDisk)
    (mapping : GeneMapping) (selected_samples : List String) (panel_genes : List String) :
    HandlerResult :=
  if selected_samples = [] then
    (DisplayComponent.noSelectionDisplay, { count := 0, total := 0, sampleCount := 0 }, [])
  else
    let df := load_variants_lazy disk selected_samples [] (some MAX_LOAD_LIMIT) cdisk
    if df = [] then
      (DisplayComponent.variantTable df,
       { count := 0, total := 0, sampleCount := selected_samples.length }, [])
    else
      -- lines 330-361: the panel-filtered frame is computed ...
      let _df2 := if panel_genes ≠ [] then
          panel_gene_filter (build_panel_ids mapping panel_genes) df
        else df
      -- ... and discarded: line 364 calls the undefined
      -- apply_filters_optimized, raising NameError before anything later
      -- (VAF filter, sorting, display, storage) can run.
      (DisplayComponent.errorComponent
         "Error loading variants: name apply_filters_optimized is not defined",
       { count := 0, total := 0, sampleCount := 0 }, [])

/-! ## Helper lemmas: every filter stage is a predicate filter -/

/-- A row-set transformer that is exactly a `List.filter` by some fixed
predicate. -/
def IsRowFilter (F : List Row → List Row) : Prop :=
  ∃ q : Row → Bool, ∀ l : List Row, F l = l.filter q

theorem isRowFilter_of_filter (q : Row → Bool) :
    IsRowFilter (fun l => l.filter q) :=
  ⟨q, fun _ => rfl⟩

theorem isRowFilter_id : IsRowFilter (fun l => l) :=
  ⟨fun _ => true, fun l => (List.filter_true l).symm⟩

theorem isRowFilter_comp (F G : List Row → List Row)
    (hF : IsRowFilter F) (hG : IsRowFilter G) : IsRowFilter (fun l => F (G l)) := by
  obtain ⟨p, hp⟩ := hF
  obtain ⟨q, hq⟩ := hG
  refine ⟨fun a => p a && q a, fun l => ?_⟩
  show F (G l) = _
  rw [hq, hp, List.filter_filter]

theorem isRowFilter_idem (F : List Row → List Row) (h : IsRowFilter F) (l : List Row) :
    F (F l) = F l := by
  obtain ⟨q, hq⟩ := h
  rw [hq, hq, List.filter_filter]
  exact List.filter_congr (fun a _ => Bool.and_self (q a))

theorem sample_stage_isRowFilter (ss : List String) : IsRowFilter (sample_stage ss) := by
  unfold sample_stage
  by_cases h : ss ≠ []
  · refine ⟨fun r => decide (r.SAMPLE ∈ ss), fun l => ?_⟩
    simp only [if_pos h]
  · refine ⟨fun _ => true, fun l => ?_⟩
    simp only [if_neg h, List.filter_true]

theorem chromosome_stage_isRowFilter (cf : String) : IsRowFilter (chromosome_stage cf) := by
  unfold chromosome_stage
  by_cases h : cf ≠ "" ∧ cf ≠ "all"
  · refine ⟨fun r => decide (r.CHROM = cf), fun l => ?_⟩
    simp only [if_pos h]
  · refine ⟨fun _ => true, fun l => ?_⟩
    simp only [if_neg h, List.filter_true]

theorem genotype_stage_isRowFilter (gf : String) : IsRowFilter (genotype_stage gf) := by
  unfold genotype_stage
  by_cases h0 : gf ≠ "" ∧ gf ≠ "all"
  · simp only [if_pos h0]
    by_cases h1 : gf = "het"
    · simp only [if_pos h1]
      exact isRowFilter_of_filter _
    · simp only [if_neg h1]
      by_cases h2 : gf = "hom_alt"
      · simp only [if_pos h2]
        exact isRowFilter_of_filter _
      · simp only [if_neg h2]
        by_cases h3 : gf = "hom_ref"
        · simp only [if_pos h3]
          exact isRowFilter_of_filter _
        · simp only [if_neg h3]
          exact isRowFilter_id
  · simp only [if_neg h0]
    exact isRowFilter_id

theorem search_stage_isRowFilter (mapping : GeneMapping) (st : String) :
    IsRowFilter (search_stage mapping st) := by
  unfold search_stage
  by_cases h : trimStr st ≠ ""
  · simp only [if_pos h]
    exact isRowFilter_of_filter _
  · simp only [if_neg h]
    exact isRowFilter_id

theorem preset_high_impact_isRowFilter (b : Bool) : IsRowFilter (preset_high_impact b) := by
  unfold preset_high_impact
  cases b
  · simp only [Bool.false_eq_true, if_false]
    exact isRowFilter_id
  · simp only [if_true]
    exact isRowFilter_of_filter _

theorem preset_pathogenic_isRowFilter (b : Bool) : IsRowFilter (preset_pathogenic b) := by
  unfold preset_pathogenic
  cases b
  · simp only [Bool.false_eq_true, if_false]
    exact isRowFilter_id
  · simp only [if_true]
    exact isRowFilter_of_filter _

theorem preset_heterozygous_isRowFilter (b : Bool) : IsRowFilter (preset_heterozygous b) := by
  unfold preset_heterozygous
  cases b
  · simp only [Bool.false_eq_true, if_false]
    exact isRowFilter_id
  · simp only [if_true]
    exact isRowFilter_of_filter _

theorem preset_homozygous_isRowFilter (b : Bool) : IsRowFilter (preset_homozygous b) := by
  unfold preset_homozygous
  cases b
  · simp only [Bool.false_eq_true, if_false]
    exact isRowFilter_id
  · simp only [if_true]
    exact isRowFilter_of_filter _

theorem preset_stage_isRowFilter (af : Option ActiveFilters) :
    IsRowFilter (preset_stage af) := by
  cases af with
  | none => exact isRowFilter_id
  | some a =>
    unfold preset_stage
    exact isRowFilter_comp (preset_homozygous a.homozygous)
      (fun l => preset_heterozygous a.heterozygous
        (preset_pathogenic a.pathogenic (preset_high_impact a.high_impact l)))
      (preset_homozygous_isRowFilter _)
      (isRowFilter_comp (preset_heterozygous a.heterozygous)
        (fun l => preset_pathogenic a.pathogenic (preset_high_impact a.high_impact l))
        (preset_heterozygous_isRowFilter _)
        (isRowFilter_comp (preset_pathogenic a.pathogenic)
          (preset_high_impact a.high_impact)
          (preset_pathogenic_isRowFilter _)
          (preset_high_impact_isRowFilter _)))

/-- `apply_filters_with_debug` always equals the plain stage pipeline: when
the input is empty both sides are empty (every stage is a filter). -/
theorem apply_filters_eq_pipeline (mapping : GeneMapping) (df : List Row)
    (st gf cf : String) (af : Option ActiveFilters) (ss : List String) :
    apply_filters_with_debug mapping df st gf cf af ss =
      preset_stage af (search_stage mapping st
        (genotype_stage gf (chromosome_stage cf (sample_stage ss df)))) := by
  unfold apply_filters_with_debug
  by_cases h : df.length = 0
  · rw [if_pos h]
    have hdf : df = [] := List.length_eq_zero.mp h
    subst hdf
    obtain ⟨q1, hq1⟩ := sample_stage_isRowFilter ss
    obtain ⟨q2, hq2⟩ := chromosome_stage_isRowFilter cf
    obtain ⟨q3, hq3⟩ := genotype_stage_isRowFilter gf
    obtain ⟨q4, hq4⟩ := search_stage_isRowFilter mapping st
    obtain ⟨q5, hq5⟩ := preset_stage_isRowFilter af
    rw [hq1, hq2, hq3, hq4, hq5]
    simp
  · rw [if_neg h]

theorem apply_filters_isRowFilter (mapping : GeneMapping)
    (st gf cf : String) (af : Option ActiveFilters) (ss : List String) :
    IsRowFilter (fun df => apply_filters mapping df st gf cf af ss) := by
  have hpipe : (fun df => apply_filters mapping df st gf cf af ss) =
      (fun df => preset_stage af (search_stage mapping st
        (genotype_stage gf (chromosome_stage cf (sample_stage ss df))))) := by
    funext df
    exact apply_filters_eq_pipeline mapping df st gf cf af ss
  rw [hpipe]
  exact isRowFilter_comp (preset_stage af)
    (fun df => search_stage mapping st
      (genotype_stage gf (chromosome_stage cf (sample_stage ss df))))
    (preset_stage_isRowFilter af)
    (isRowFilter_comp (search_stage mapping st)
      (fun df => genotype_stage gf (chromosome_stage cf (sample_stage ss df)))
      (search_stage_isRowFilter mapping st)
      (isRowFilter_comp (genotype_stage gf)
        (fun df => chromosome_stage cf (sample_stage ss df))
        (genotype_stage_isRowFilter gf)
        (isRowFilter_comp (chromosome_stage cf) (sample_stage ss)
          (chromosome_stage_isRowFilter cf)
          (sample_stage_isRowFilter ss))))

/-- C7: apply_filters is idempotent — for every row-set and every fixed
parameter set (search term, genotype filter, chromosome filter, preset
filters, selected samples), applying the filter pipeline twice yields the
same list (same membership, same order) as applying it once. -/
theorem C7_apply_filters_idempotent (mapping : GeneMapping) (df : List Row)
    (st gf cf : String) (af : Option ActiveFilters) (ss : List String) :
    apply_filters mapping (apply_filters mapping df st gf cf af ss) st gf cf af ss =
      apply_filters mapping df st gf cf af ss :=
  isRowFilter_idem (fun df => apply_filters mapping df st gf cf af ss)
    (apply_filters_isRowFilter mapping st gf cf af ss) df

/-! ## C3: token-exact gene-panel filter -/

/-- A concrete row with the multi-gene field "123,456" from the spec's
panel-filter test. -/
def multiGeneRow : Row :=
  { CHROM := "1", POS := 1000, REF := "A", ALT := "T", SAMPLE := "S1", GT := "0/1",
    VAF := 0, gene := "123,456", consequence := "missense_variant", clinvar_sig := none,
    review_status := "Pending", variant_key := "1:1000:A:T" }

/-- C3: the gene-panel filter is token-exact on the comma-joined gene
field — a row is retained iff some identifier of the active panel set
equals one of the tokens obtained by splitting the row's gene field on the
comma; in particular the row with gene field "123,456" is retained for the
panel id set containing "456" and not retained for the set containing
"12" (no substring matching of partial tokens). -/
theorem C3_panel_filter_token_exact :
    (∀ (gene_list : List String) (df : List Row) (r : Row),
      r ∈ panel_gene_filter gene_list df ↔
        r ∈ df ∧ ∃ g ∈ gene_list, g ∈ splitOnStr r.gene ',') ∧
    multiGeneRow ∈ panel_gene_filter ["456"] [multiGeneRow] ∧
    multiGeneRow ∉ panel_gene_filter ["12"] [multiGeneRow] := by
  refine ⟨?_, ?_, ?_⟩
  · intro gene_list df r
    match gene_list with
    | [g] =>
      simp [panel_gene_filter, List.mem_filter]
    | [] =>
      simp [panel_gene_filter, List.mem_filter]
    | g1 :: g2 :: t =>
      simp [panel_gene_filter, List.mem_filter, List.any_eq_true]
  · decide
  · decide

/-! ## C10: gene identifier resolution fallback -/

/-- C10 counterexample: `get_gene_name_from_id` on the empty identifier
does not return the input unchanged — it returns the placeholder
'UNKNOWN', which differs from the input. -/
theorem C10_counterexample :
    get_gene_name_from_id [("1", "ZZZ")] "" = "UNKNOWN" ∧ ("UNKNOWN" : String) ≠ "" := by
  constructor
  · decide
  · decide

/-- C10 (amended): for every nonempty identifier, an identifier not present
in the loaded mapping is returned unchanged (never raising, never a null
or placeholder different from the input), and an identifier present in the
mapping (other than the literal 'UNKNOWN') resolves to its mapped symbol;
the empty identifier (like a None/NaN input) returns the placeholder
'UNKNOWN'. -/
theorem C10_identity_fallback (mapping : GeneMapping) (gene_id : String)
    (hne : gene_id ≠ "") :
    (List.lookup gene_id mapping = none → get_gene_name_from_id mapping gene_id = gene_id) ∧
    (gene_id ≠ "UNKNOWN" → ∀ sym, List.lookup gene_id mapping = some sym →
      get_gene_name_from_id mapping gene_id = sym) ∧
    get_gene_name_from_id mapping "" = "UNKNOWN" := by
  refine ⟨?_, ?_, ?_⟩
  · intro hlook
    unfold get_gene_name_from_id
    by_cases h0 : gene_id = "" ∨ gene_id = "UNKNOWN"
    · rw [if_pos h0, if_pos hne]
    · rw [if_neg h0]
      by_cases h1 : (mapping ≠ [] ∧ List.lookup gene_id mapping = none) ∧
          mapping.any (fun p => toUpperStr p.2 = toUpperStr gene_id)
      · rw [if_pos h1]
      · rw [if_neg h1, hlook]
        rfl
  · intro hunk sym hlook
    unfold get_gene_name_from_id
    have h0 : ¬ (gene_id = "" ∨ gene_id = "UNKNOWN") := by
      intro h
      rcases h with h | h
      · exact hne h
      · exact hunk h
    rw [if_neg h0]
    have h1 : ¬ ((mapping ≠ [] ∧ List.lookup gene_id mapping = none) ∧
        mapping.any (fun p => toUpperStr p.2 = toUpperStr gene_id)) := by
      intro h
      rw [hlook] at h
      exact Option.some_ne_none sym h.1.2
    rw [if_neg h1, hlook]
    rfl
  · rfl

/-- C10 witness: the amended fallback evaluated at concrete inputs — the
unknown identifier "7" passes through unchanged and the mapped identifier
"1" resolves to "ZZZ". -/
theorem C10_witness :
    get_gene_name_from_id [("1", "ZZZ")] "7" = "7" ∧
    get_gene_name_from_id [("1", "ZZZ")] "1" = "ZZZ" :=
  ⟨(C10_identity_fallback [("1", "ZZZ")] "7" (by decide)).1 (by decide),
   (C10_identity_fallback [("1", "ZZZ")] "1" (by decide)).2.1 (by decide) "ZZZ" (by decide)⟩

/-! ## C1: load_variants_lazy bounds and filter containment -/

/-- A missing comments file contributes the zero comment-count column in
both branches of the display-size test. -/
theorem attach_comment_counts_none (df : List Row) :
    attach_comment_counts none df =
      df.map (fun r => { r with commentCount := some 0 }) := by
  unfold attach_comment_counts
  split <;> rfl

/-- A comments read error likewise contributes the zero column. -/
theorem attach_comment_counts_error (msg : String) (df : List Row) :
    attach_comment_counts (some (.error msg)) df =
      df.map (fun r => { r with commentCount := some 0 }) := by
  unfold attach_comment_counts
  split <;> rfl

/-- The successful-comments-read branch of the attachment, written out. -/
theorem attach_comment_counts_ok (cs : List Comment) (df : List Row) :
    attach_comment_counts (some (.ok cs)) df =
      if df.length ≤ MAX_DISPLAY_VARIANTS then
        (if 0 < cs.length then
          df.map (fun r => { r with commentCount := some (comment_count_for cs r) })
        else df)
      else df.map (fun r => { r with commentCount := some 0 }) := by
  unfold attach_comment_counts
  split <;> rfl

/-- Attaching comment counts never changes the number of rows. -/
theorem attach_comment_counts_length (cdisk : CommentsDisk) (df : List Row) :
    (attach_comment_counts cdisk df).length = df.length := by
  rcases cdisk with _ | e
  · rw [attach_comment_counts_none]
    simp
  · rcases e with msg | cs
    · rw [attach_comment_counts_error]
      simp
    · rw [attach_comment_counts_ok]
      by_cases hlen : df.length ≤ MAX_DISPLAY_VARIANTS
      · rw [if_pos hlen]
        by_cases hcs : 0 < cs.length
        · rw [if_pos hcs]
          simp
        · rw [if_neg hcs]
      · rw [if_neg hlen]
        simp

/-- Every row coming out of the comment-count attachment is one of the
input rows with only the `commentCount` column possibly changed. -/
theorem attach_comment_counts_mem (cdisk : CommentsDisk) (df : List Row) (r : Row)
    (h : r ∈ attach_comment_counts cdisk df) :
    ∃ r0 ∈ df, r.SAMPLE = r0.SAMPLE ∧ r.CHROM = r0.CHROM := by
  rcases cdisk with _ | e
  · rw [attach_comment_counts_none] at h
    obtain ⟨r0, hr0, heq⟩ := List.mem_map.mp h
    exact ⟨r0, hr0, by rw [← heq], by rw [← heq]⟩
  · rcases e with msg | cs
    · rw [attach_comment_counts_error] at h
      obtain ⟨r0, hr0, heq⟩ := List.mem_map.mp h
      exact ⟨r0, hr0, by rw [← heq], by rw [← heq]⟩
    · rw [attach_comment_counts_ok] at h
      by_cases hlen : df.length ≤ MAX_DISPLAY_VARIANTS
      · rw [if_pos hlen] at h
        by_cases hcs : 0 < cs.length
        · rw [if_pos hcs] at h
          obtain ⟨r0, hr0, heq⟩ := List.mem_map.mp h
          exact ⟨r0, hr0, by rw [← heq], by rw [← heq]⟩
        · rw [if_neg hcs] at h
          exact ⟨r, h, rfl, rfl⟩
      · rw [if_neg hlen] at h
        obtain ⟨r0, hr0, heq⟩ := List.mem_map.mp h
        exact ⟨r0, hr0, by rw [← heq], by rw [← heq]⟩

/-- Membership in a conditionally applied filter is membership in the
base list. -/
theorem mem_of_mem_ite_filter {c : Prop} [Decidable c] {p : Row → Bool} {l : List Row}
    {r : Row} (h : r ∈ (if c then l.filter p else l)) : r ∈ l := by
  split at h
  · exact (List.mem_filter.mp h).1
  · exact h

/-- When the condition of a conditionally applied filter holds, members
satisfy its predicate. -/
theorem pred_of_mem_ite_filter {c : Prop} [Decidable c] {p : Row → Bool} {l : List Row}
    {r : Row} (hc : c) (h : r ∈ (if c then l.filter p else l)) : p r = true := by
  rw [if_pos hc] at h
  exact (List.mem_filter.mp h).2

/-- The successful-read branch of `load_variants_lazy`, written out. -/
theorem load_variants_lazy_ok (rows : List Row) (samples chromosomes : List String)
    (limit : Option Nat) (cdisk : CommentsDisk) :
    load_variants_lazy (some (.ok rows)) samples chromosomes limit cdisk =
      attach_comment_counts cdisk
        ((if chromosomes ≠ [] then
            (if samples ≠ [] then rows.filter (fun r => decide (r.SAMPLE ∈ samples)) else rows).filter
              (fun r => decide (r.CHROM ∈ chromosomes.map (fun c => strReplace c "chr" "")))
          else
            (if samples ≠ [] then rows.filter (fun r => decide (r.SAMPLE ∈ samples)) else rows)).take
          (effective_limit limit)) := rfl

/-- A concrete variant row reused by several concrete instances below. -/
def exampleRow : Row :=
  { CHROM := "1", POS := 1000, REF := "A", ALT := "T", SAMPLE := "S1", GT := "0/1",
    VAF := 0, gene := "1", consequence := "missense_variant", clinvar_sig := none,
    review_status := "Pending", variant_key := "1:1000:A:T" }

/-- C1 counterexample: the claim fails as stated on two edges of the code.
With `limit=0` (Python `limit or MAX_LOAD_LIMIT` treats 0 as unsupplied)
a one-row dataset yields one row, exceeding min(0, MAX_LOAD_LIMIT) = 0;
and with the requested chromosome set {"chr1"} the returned row's CHROM is
the stripped name "1", which is not a member of the requested set. -/
theorem C1_counterexample :
    (load_variants_lazy (some (.ok [exampleRow])) [] [] (some 0) none).length = 1 ∧
    ¬ ((load_variants_lazy (some (.ok [exampleRow])) [] [] (some 0) none).length ≤
        min 0 MAX_LOAD_LIMIT) ∧
    ((load_variants_lazy (some (.ok [exampleRow])) [] ["chr1"] (some 5) none).any
      (fun r => decide (r.CHROM ∉ (["chr1"] : List String)))) = true := by
  refine ⟨by decide, by decide, by decide⟩

/-- C1 (amended): for every on-disk state and every requested limit N ≥ 1
(a limit of 0, like None, falls back to MAX_LOAD_LIMIT), the returned
row-set has at most min(N, MAX_LOAD_LIMIT) rows; when a sample set is
supplied every returned row's SAMPLE is a member of the requested set, and
when a chromosome set is supplied every returned row's CHROM is a member
of the requested set after stripping "chr" from the requested names. -/
theorem C1_load_limit_and_containment (disk : VariantsDisk)
    (samples chromosomes : List String) (N : Nat) (cdisk : CommentsDisk) (hN : 1 ≤ N) :
    (load_variants_lazy disk samples chromosomes (some N) cdisk).length ≤
      min N MAX_LOAD_LIMIT ∧
    (samples ≠ [] → ∀ r ∈ load_variants_lazy disk samples chromosomes (some N) cdisk,
      r.SAMPLE ∈ samples) ∧
    (chromosomes ≠ [] → ∀ r ∈ load_variants_lazy disk samples chromosomes (some N) cdisk,
      r.CHROM ∈ chromosomes.map (fun c => strReplace c "chr" "")) := by
  have heff : effective_limit (some N) = min N MAX_LOAD_LIMIT := by
    have hNz : ¬ N = 0 := by omega
    unfold effective_limit
    simp [hNz]
  rcases disk with _ | e
  · refine ⟨by simp [load_variants_lazy], ?_, ?_⟩ <;> intro h r hr <;> simp [load_variants_lazy] at hr
  · rcases e with msg | rows
    · refine ⟨by simp [load_variants_lazy], ?_, ?_⟩ <;> intro h r hr <;>
        simp [load_variants_lazy] at hr
    · rw [load_variants_lazy_ok]
      refine ⟨?_, ?_, ?_⟩
      · rw [attach_comment_counts_length, heff]
        exact List.length_take_le _ _
      · intro hs r hr
        obtain ⟨r0, hr0, hS, _⟩ := attach_comment_counts_mem _ _ _ hr
        have hr2 := List.mem_of_mem_take hr0
        have hr1 := mem_of_mem_ite_filter hr2
        have hp := pred_of_mem_ite_filter hs hr1
        rw [hS]
        exact of_decide_eq_true hp
      · intro hc r hr
        obtain ⟨r0, hr0, _, hC⟩ := attach_comment_counts_mem _ _ _ hr
        have hr2 := List.mem_of_mem_take hr0
        have hp := pred_of_mem_ite_filter hc hr2
        rw [hC]
        exact of_decide_eq_true hp

/-- C1 witness: the amended bound and both containment guarantees evaluated
at a concrete one-row dataset with samples {"S1"}, chromosomes {"chr1"}
and limit 1. -/
theorem C1_witness :
    (load_variants_lazy (some (.ok [exampleRow])) ["S1"] ["chr1"] (some 1) none).length ≤
      min 1 MAX_LOAD_LIMIT ∧
    ((["S1"] : List String) ≠ [] →
      ∀ r ∈ load_variants_lazy (some (.ok [exampleRow])) ["S1"] ["chr1"] (some 1) none,
        r.SAMPLE ∈ (["S1"] : List String)) ∧
    ((["chr1"] : List String) ≠ [] →
      ∀ r ∈ load_variants_lazy (some (.ok [exampleRow])) ["S1"] ["chr1"] (some 1) none,
        r.CHROM ∈ (["chr1"] : List String).map (fun c => strReplace c "chr" "")) :=
  C1_load_limit_and_containment (some (.ok [exampleRow])) ["S1"] ["chr1"] 1 none (by decide)

/-! ## C2: the display handler always degrades to the error component -/

/-- C2: in `update_variants_display_optimized`, for every non-empty sample
selection for which the variant store returns a non-empty row-set,
execution reaches the call to `apply_filters_optimized` — a name defined
nowhere in the source — and the resulting NameError is caught by the
handler's outer try/except, so every such invocation returns the error
component with zero counts and empty storage; the filter/sort/display
pipeline through this handler never produces a filtered table. -/
theorem C2_handler_returns_error (disk : VariantsDisk) (cdisk : CommentsDisk)
    (mapping : GeneMapping) (selected_samples panel_genes : List String)
    (h1 : selected_samples ≠ [])
    (h2 : load_variants_lazy disk selected_samples [] (some MAX_LOAD_LIMIT) cdisk ≠ []) :
    update_variants_display_optimized disk cdisk mapping selected_samples panel_genes =
      (DisplayComponent.errorComponent
         "Error loading variants: name apply_filters_optimized is not defined",
       { count := 0, total := 0, sampleCount := 0 }, []) := by
  unfold update_variants_display_optimized
  rw [if_neg h1]
  rw [if_neg h2]

/-- C2 witness: a concrete one-row dataset under the selection {"S1"} ends
in the error component with zero counts. -/
theorem C2_witness :
    update_variants_display_optimized (some (.ok [exampleRow])) none [] ["S1"] [] =
      (DisplayComponent.errorComponent
         "Error loading variants: name apply_filters_optimized is not defined",
       { count := 0, total := 0, sampleCount := 0 }, []) :=
  C2_handler_returns_error (some (.ok [exampleRow])) none [] ["S1"] [] (by decide) (by decide)

/-! ## C4: chromosome-aware position sort -/

theorem polars_two_key_le_total (d : Bool) (k1 : Option Int) (p1 : Int)
    (k2 : Option Int) (p2 : Int) :
    (polars_two_key_le d k1 p1 k2 p2 || polars_two_key_le d k2 p2 k1 p1) = true := by
  rcases k1 with _ | i
  · rcases k2 with _ | j
    · simp only [polars_two_key_le]
      by_cases hd : d = true
      · simp only [if_pos hd, Bool.or_eq_true, decide_eq_true_eq]
        omega
      · simp only [if_neg hd, Bool.or_eq_true, decide_eq_true_eq]
        omega
    · simp [polars_two_key_le]
  · rcases k2 with _ | j
    · simp [polars_two_key_le]
    · simp only [polars_two_key_le]
      by_cases hd : d = true
      · simp only [if_pos hd]
        split_ifs <;> simp only [Bool.or_eq_true, decide_eq_true_eq] <;> omega
      · simp only [if_neg hd]
        split_ifs <;> simp only [Bool.or_eq_true, decide_eq_true_eq] <;> omega

theorem polars_two_key_le_trans (d : Bool) (k1 : Option Int) (p1 : Int)
    (k2 : Option Int) (p2 : Int) (k3 : Option Int) (p3 : Int)
    (h1 : polars_two_key_le d k1 p1 k2 p2 = true)
    (h2 : polars_two_key_le d k2 p2 k3 p3 = true) :
    polars_two_key_le d k1 p1 k3 p3 = true := by
  rcases k1 with _ | i
  · rcases k3 with _ | k
    · rcases k2 with _ | j
      · simp only [polars_two_key_le] at h1 h2 ⊢
        by_cases hd : d = true
        · simp only [if_pos hd, decide_eq_true_eq] at h1 h2 ⊢
          omega
        · simp only [if_neg hd, decide_eq_true_eq] at h1 h2 ⊢
          omega
      · simp only [polars_two_key_le] at h2
        exact absurd h2 Bool.false_ne_true
    · simp only [polars_two_key_le]
  · rcases k2 with _ | j
    · simp only [polars_two_key_le] at h1
      exact absurd h1 Bool.false_ne_true
    · rcases k3 with _ | k
      · simp only [polars_two_key_le] at h2
        exact absurd h2 Bool.false_ne_true
      · simp only [polars_two_key_le] at h1 h2 ⊢
        by_cases hd : d = true
        · simp only [if_pos hd] at h1 h2 ⊢
          split_ifs at h1 h2 ⊢ <;> simp only [decide_eq_true_eq] at h1 h2 ⊢ <;> omega
        · simp only [if_neg hd] at h1 h2 ⊢
          split_ifs at h1 h2 ⊢ <;> simp only [decide_eq_true_eq] at h1 h2 ⊢ <;> omega

theorem position_le_total (d : Bool) (a b : Row) :
    (position_le d a b || position_le d b a) = true :=
  polars_two_key_le_total d _ _ _ _

theorem position_le_trans (d : Bool) (a b c : Row)
    (h1 : position_le d a b = true) (h2 : position_le d b c = true) :
    position_le d a c = true :=
  polars_two_key_le_trans d _ _ _ _ _ _ h1 h2

/-- The "position" branch of `sort_variants`, written out. -/
theorem sort_variants_position (df : List Row) (ascending : Bool) :
    sort_variants df "position" ascending = sort_by_bool (position_le (!ascending)) df := rfl

/-- Rows for the spec's position-sort test: chromosomes 1 (two positions),
2, X, Y and MT, deliberately shuffled. -/
def c4rows : List Row :=
  [{ exampleRow with CHROM := "X", POS := 5, variant_key := "X:5:A:T" },
   { exampleRow with CHROM := "1", POS := 100, variant_key := "1:100:A:T" },
   { exampleRow with CHROM := "MT", POS := 3, variant_key := "MT:3:A:T" },
   { exampleRow with CHROM := "Y", POS := 7, variant_key := "Y:7:A:T" },
   { exampleRow with CHROM := "2", POS := 50, variant_key := "2:50:A:T" },
   { exampleRow with CHROM := "1", POS := 200, variant_key := "1:200:A:T" }]

/-- C4 counterexample: sorting by position descending applies the
descending direction to the chromosome key as well, so on rows with CHROM
in {"1","2","X","Y","MT"} the result starts with MT and places X and Y
before the numeric chromosomes — MT is first, not last, contradicting the
claim's "X and Y after all numeric chromosomes, and MT last" for the
descending direction. -/
theorem C4_counterexample :
    ((sort_variants c4rows "position" false).map (fun r => r.CHROM) =
      ["MT", "Y", "X", "2", "1", "1"]) ∧
    ((sort_variants c4rows "position" false).map (fun r => r.CHROM)).getLast? ≠ some "MT" := by
  refine ⟨by decide, by decide⟩

/-- C4 (amended): sorting by position is chromosome-aware with numeric
chromosomes mapped to their value and X, Y, MT mapped to 23, 24, 25, and
position ordered within chromosome; the chosen direction applies to both
keys, so ascending order places X and Y after all numeric chromosomes with
MT last, while descending order reverses the chromosome order as well,
placing MT first, then Y, then X, then the numeric chromosomes. -/
theorem C4_position_sort_chromosome_aware :
    (chrom_numeric_key "X" = some 23 ∧ chrom_numeric_key "Y" = some 24 ∧
     chrom_numeric_key "MT" = some 25 ∧ chrom_numeric_key "7" = some 7 ∧
     chrom_numeric_key "22" = some 22) ∧
    (∀ (df : List Row) (ascending : Bool),
      List.Sorted (fun a b => position_le (!ascending) a b = true)
        (sort_variants df "position" ascending) ∧
      (sort_variants df "position" ascending).Perm df) ∧
    ((sort_variants c4rows "position" true).map (fun r => (r.CHROM, r.POS)) =
      [("1", 100), ("1", 200), ("2", 50), ("X", 5), ("Y", 7), ("MT", 3)]) ∧
    ((sort_variants c4rows "position" false).map (fun r => (r.CHROM, r.POS)) =
      [("MT", 3), ("Y", 7), ("X", 5), ("2", 50), ("1", 200), ("1", 100)]) := by
  refine ⟨by decide, ?_, by decide, by decide⟩
  intro df ascending
  rw [sort_variants_position]
  exact ⟨sort_by_bool_sorted (position_le (!ascending)) (position_le_trans (!ascending))
      (position_le_total (!ascending)) df,
    sort_by_bool_perm (position_le (!ascending)) df⟩

/-! ## C5: gene sort by resolved symbol -/

theorem gene_symbol_sort_le_total (mapping : GeneMapping) (d : Bool) (a b : Row) :
    (gene_symbol_sort_le mapping d a b || gene_symbol_sort_le mapping d b a) = true := by
  unfold gene_symbol_sort_le
  by_cases hd : d = true
  · simp only [if_pos hd]
    rw [Bool.or_comm]
    exact strLeB_total _ _
  · simp only [if_neg hd]
    exact strLeB_total _ _

theorem gene_symbol_sort_le_trans (mapping : GeneMapping) (d : Bool) (a b c : Row)
    (h1 : gene_symbol_sort_le mapping d a b = true)
    (h2 : gene_symbol_sort_le mapping d b c = true) :
    gene_symbol_sort_le mapping d a c = true := by
  unfold gene_symbol_sort_le at h1 h2 ⊢
  by_cases hd : d = true
  · simp only [if_pos hd] at h1 h2 ⊢
    exact strLeB_trans _ _ _ h2 h1
  · simp only [if_neg hd] at h1 h2 ⊢
    exact strLeB_trans _ _ _ h1 h2

/-- The id→symbol mapping of the spec's gene-sort test. -/
def c5mapping : GeneMapping := [("1", "ZZZ"), ("2", "AAA")]

/-- Rows whose gene fields are the raw identifiers "1" and "2". -/
def c5rows : List Row :=
  [exampleRow, { exampleRow with gene := "2", variant_key := "1:1001:A:T", POS := 1001 }]

/-- C5: the display handler's gene sort orders rows by the resolved
human-readable symbol of the first listed gene, not by the raw identifier:
the output is always a permutation of the input pairwise ordered by the
resolved-symbol key; with the mapping 1→ZZZ and 2→AAA, ascending order
places the row with gene field "2" (symbol AAA) before the row with gene
field "1" (symbol ZZZ), and a multi-gene field sorts by its first listed
gene's symbol. -/
theorem C5_gene_sort_by_symbol :
    (∀ (mapping : GeneMapping) (df : List Row) (ascending : Bool),
      List.Sorted (fun a b => gene_symbol_sort_le mapping (!ascending) a b = true)
        (sort_by_gene_symbol mapping df ascending) ∧
      (sort_by_gene_symbol mapping df ascending).Perm df) ∧
    ((sort_by_gene_symbol c5mapping c5rows true).map (fun r => r.gene) = ["2", "1"]) ∧
    convert_gene_ids_to_symbols c5mapping "2,1" = "AAA" ∧
    convert_gene_ids_to_symbols c5mapping "1" = "ZZZ" := by
  refine ⟨?_, by decide, by decide, by decide⟩
  intro mapping df ascending
  exact ⟨sort_by_bool_sorted (gene_symbol_sort_le mapping (!ascending))
      (gene_symbol_sort_le_trans mapping (!ascending))
      (gene_symbol_sort_le_total mapping (!ascending)) df,
    sort_by_bool_perm (gene_symbol_sort_le mapping (!ascending)) df⟩

/-! ## C6: comment append and retrieval -/

/-- The successful-read branch of `get_variant_comments`, written out. -/
theorem get_variant_comments_ok (cs : List Comment) (vk sid : String) :
    get_variant_comments (some (.ok cs)) vk sid =
      if cs.length = 0 then []
      else
        ((sort_by_bool comment_ts_desc_le
            (cs.filter (fun c =>
              decide (c.variant_key = vk) && decide (c.sample_id = sid)))).map
          (fun c => (c.user_name, c.comment_text, c.timestamp))) := rfl

/-- Whatever the store state, the retrieved comment list is ordered newest
first: pairwise descending by timestamp. -/
theorem get_variant_comments_sorted (cdisk : CommentsDisk) (vk sid : String) :
    List.Sorted (fun x y : String × String × String => strLeB y.2.2 x.2.2 = true)
      (get_variant_comments cdisk vk sid) := by
  rcases cdisk with _ | e
  · exact List.sorted_nil
  · rcases e with msg | cs
    · exact List.sorted_nil
    · rw [get_variant_comments_ok]
      by_cases h : cs.length = 0
      · rw [if_pos h]
        exact List.sorted_nil
      · rw [if_neg h]
        exact List.Pairwise.map _ (fun a b hab => hab)
          (sort_by_bool_sorted comment_ts_desc_le
            (fun a b c h1 h2 => strLeB_trans c.timestamp b.timestamp a.timestamp h2 h1)
            (fun a b => strLeB_total b.timestamp a.timestamp) _)

/-- A stored comment matching the requested (variant_key, sample_id) pair
appears in the retrieved list. -/
theorem get_variant_comments_mem (cs : List Comment) (vk sid : String) (c : Comment)
    (hc : c ∈ cs) (hvk : c.variant_key = vk) (hsid : c.sample_id = sid)
    (hne : ¬ cs.length = 0) :
    (c.user_name, c.comment_text, c.timestamp) ∈ get_variant_comments (some (.ok cs)) vk sid := by
  rw [get_variant_comments_ok, if_neg hne]
  apply List.mem_map.mpr
  refine ⟨c, ?_, rfl⟩
  apply ((sort_by_bool_perm comment_ts_desc_le _).mem_iff).mpr
  apply List.mem_filter.mpr
  exact ⟨hc, by simp [hvk, hsid]⟩

/-- C6: `add_variant_comment` appends exactly one row whose id is the
maximum existing comment id plus one (or 1 on an empty comments dataset)
and returns True; a subsequent `get_variant_comments` for the same
(variant_key, sample_id) returns that pair's comments ordered newest first
by timestamp descending, with the newly added comment included. -/
theorem C6_add_comment_then_get (cs : List Comment) (vk sid user text ts : String) :
    (add_variant_comment (some (.ok cs)) true vk sid user text ts).1 = true ∧
    (add_variant_comment (some (.ok cs)) true vk sid user text ts).2 =
      some (.ok (cs ++ [{ id := new_comment_id cs, variant_key := vk, sample_id := sid,
                          user_name := user, comment_text := text, timestamp := ts }])) ∧
    new_comment_id cs =
      (if cs.length = 0 then 1 else ((cs.map (fun c => c.id)).max?.getD 0) + 1) ∧
    List.Sorted (fun x y : String × String × String => strLeB y.2.2 x.2.2 = true)
      (get_variant_comments
        (add_variant_comment (some (.ok cs)) true vk sid user text ts).2 vk sid) ∧
    (user, text, ts) ∈
      get_variant_comments
        (add_variant_comment (some (.ok cs)) true vk sid user text ts).2 vk sid ∧
    (get_variant_comments
        (add_variant_comment (some (.ok cs)) true vk sid user text ts).2 vk sid).length =
      ((cs ++ [({ id := new_comment_id cs, variant_key := vk, sample_id := sid,
                  user_name := user, comment_text := text, timestamp := ts } : Comment)]).filter
        (fun c : Comment => decide (c.variant_key = vk) && decide (c.sample_id = sid))).length := by
  refine ⟨rfl, rfl, ?_, ?_, ?_, ?_⟩
  · cases cs <;> simp [new_comment_id]
  · exact get_variant_comments_sorted _ vk sid
  · have h2eq : (add_variant_comment (some (.ok cs)) true vk sid user text ts).2 =
        some (.ok (cs ++ [{ id := new_comment_id cs, variant_key := vk, sample_id := sid,
                            user_name := user, comment_text := text, timestamp := ts }])) := rfl
    rw [h2eq]
    exact get_variant_comments_mem
      (cs ++ [{ id := new_comment_id cs, variant_key := vk, sample_id := sid,
                user_name := user, comment_text := text, timestamp := ts }])
      vk sid
      { id := new_comment_id cs, variant_key := vk, sample_id := sid,
        user_name := user, comment_text := text, timestamp := ts }
      (by simp) rfl rfl (by simp)
  · have h2eq : (add_variant_comment (some (.ok cs)) true vk sid user text ts).2 =
        some (.ok (cs ++ [{ id := new_comment_id cs, variant_key := vk, sample_id := sid,
                            user_name := user, comment_text := text, timestamp := ts }])) := rfl
    rw [h2eq, get_variant_comments_ok, if_neg (by simp), List.length_map]
    exact (sort_by_bool_perm comment_ts_desc_le _).length_eq

/-! ## C9: the data store fails soft -/

/-- C9: the variant data store operations fail soft.  A missing variants
file makes `load_variants_lazy` and `search_variants` return the empty
row-set; for every input, a read/parse failure inside `load_variants_lazy`,
`search_variants`, `get_database_stats`, `add_variant_comment`,
`get_variant_comments` or `update_variant_review_status` is caught and
converted to an empty result, the all-zero default statistics, or a False
flag (a write failure likewise yields False with the file unchanged); being
total Lean functions, the models propagate no exception.  A failing
comments read inside `load_variants_lazy` degrades to the same result as a
missing comments file (the zero comment-count column). -/
theorem C9_store_fails_soft (samples chromosomes : List String) (limit : Option Nat)
    (cdisk : CommentsDisk) (e : String) (term : String) (n : Nat) (writeOk : Bool)
    (vk sid user text ts status : String) (ds : List Row) :
    load_variants_lazy none samples chromosomes limit cdisk = [] ∧
    load_variants_lazy (some (.error e)) samples chromosomes limit cdisk = [] ∧
    search_variants none term n = [] ∧
    search_variants (some (.error e)) term n = [] ∧
    get_database_stats none = empty_db_stats ∧
    get_database_stats (some (.error e)) = empty_db_stats ∧
    add_variant_comment (some (.error e)) writeOk vk sid user text ts =
      (false, some (.error e)) ∧
    (∀ cd : CommentsDisk, (add_variant_comment cd false vk sid user text ts).1 = false) ∧
    get_variant_comments none vk sid = [] ∧
    get_variant_comments (some (.error e)) vk sid = [] ∧
    update_variant_review_status none writeOk vk sid status = (false, none) ∧
    update_variant_review_status (some (.error e)) writeOk vk sid status =
      (false, some (.error e)) ∧
    (∀ d : VariantsDisk, (update_variant_review_status d false vk sid status).1 = false) ∧
    load_variants_lazy (some (.ok ds)) samples chromosomes limit (some (.error e)) =
      load_variants_lazy (some (.ok ds)) samples chromosomes limit none := by
  refine ⟨rfl, rfl, rfl, rfl, rfl, rfl, rfl, ?_, rfl, rfl, rfl, rfl, ?_, ?_⟩
  · intro cd
    rcases cd with _ | e'
    · rfl
    · rcases e' with msg | cs <;> rfl
  · intro d
    rcases d with _ | e'
    · rfl
    · rcases e' with msg | rows <;> rfl
  · rw [load_variants_lazy_ok, load_variants_lazy_ok,
      attach_comment_counts_error, attach_comment_counts_none]
